import Mathlib

/-!
Verification of `racebuf-rs` (`src/lib.rs`): a fixed-length buffer `RaceBuf<T>`
wrapping a `Vec<T>`, with bounds-checked `get`/`set` built on top of unchecked
volatile single-element accesses.

The embedding models the backing `Vec<T>` as a `List T`.  The sequential
(single-threaded) semantics of each operation is translated directly from the
source.  The unchecked accessors, whose out-of-bounds use is undefined
behaviour in the source, are modelled as `Option`-valued: `none` stands for an
access outside the allocation (UB); the checked accessors are then shown never
to reach that case.
-/

/-- `pub struct RaceBuf<T>(Vec<T>);` — the backing storage is a fixed
vector of elements, modelled as a list. -/
structure RaceBuf (T : Type) where
  buf : List T
  deriving Repr, DecidableEq

namespace RaceBuf

variable {T : Type}

/-- `new_with_value(size, value)`: a vector of `size` copies of `value`
(`Vec::with_capacity` followed by `resize(size, value)`). -/
def new_with_value (size : Nat) (value : T) : RaceBuf T :=
  ⟨List.replicate size value⟩

/-- `from_vec(vec)`: wraps an existing vector without copying. -/
def from_vec (vec : List T) : RaceBuf T :=
  ⟨vec⟩

/-- `into_inner(self)`: returns the backing vector. -/
def into_inner (b : RaceBuf T) : List T :=
  b.buf

/-- `len(&self)`: length of the backing vector. -/
def len (b : RaceBuf T) : Nat :=
  b.buf.length

/-- `get_unchecked(&self, idx)`: a volatile load at offset `idx` from the
base pointer.  Out-of-allocation access is undefined behaviour in the
source; it is modelled as `none`. -/
def get_unchecked (b : RaceBuf T) (idx : Nat) : Option T :=
  b.buf.get? idx

/-- `set_unchecked(&self, idx, value)`: a volatile store of `value` at offset
`idx` from the base pointer.  Out-of-allocation access is undefined behaviour
in the source; it is modelled as `none`, an in-bounds store yields the
updated buffer. -/
def set_unchecked (b : RaceBuf T) (idx : Nat) (value : T) : Option (RaceBuf T) :=
  if idx < b.buf.length then some ⟨b.buf.set idx value⟩ else none

/-- `get(&self, idx)`: `None` when `idx >= self.0.len()`, otherwise the
value loaded by `get_unchecked(idx)`, which is in bounds on that branch. -/
def get (b : RaceBuf T) (idx : Nat) : Option T :=
  if idx ≥ b.buf.length then none
  else b.buf.get? idx

/-- `set(&self, idx, value)`: returns with no effect when
`idx >= self.0.len()`, otherwise performs the in-bounds store of
`set_unchecked(idx, value)`. -/
def set (b : RaceBuf T) (idx : Nat) (value : T) : RaceBuf T :=
  if idx ≥ b.buf.length then b
  else ⟨b.buf.set idx value⟩

/-- `new(size)` (for `T: Default`): `new_with_value(size, T::default())`. -/
def new [Inhabited T] (size : Nat) : RaceBuf T :=
  new_with_value size (default : T)

/-- A single call through the buffer interface: `get` takes `&self` and
cannot change the buffer, `set` updates it in place. -/
inductive Op (T : Type) where
  | get (idx : Nat) : Op T
  | set (idx : Nat) (value : T) : Op T

/-- State of the buffer after one call. -/
def applyOp (b : RaceBuf T) : Op T → RaceBuf T
  | Op.get _ => b
  | Op.set idx value => b.set idx value

/-- State of the buffer after a finite sequence of `get`/`set` calls. -/
def applyOps (b : RaceBuf T) (ops : List (Op T)) : RaceBuf T :=
  ops.foldl applyOp b

end RaceBuf

namespace RaceBuf

/-- Helper: `set` never changes the length of the backing storage. -/
theorem len_set {T : Type} (b : RaceBuf T) (i : Nat) (v : T) :
    (b.set i v).len = b.len := by
  unfold set len
  split
  · rfl
  · simp [List.length_set]

/-- Helper: a single `get` or `set` call never changes the length. -/
theorem len_applyOp {T : Type} (b : RaceBuf T) (op : Op T) :
    (applyOp b op).len = b.len := by
  cases op with
  | get idx => rfl
  | set idx v => exact len_set b idx v

end RaceBuf

/-- Claim C1: after `new_with_value(size, v)`, `get(i)` returns `Some(v)`
for every `i < size` and `None` for every `i ≥ size`. -/
theorem new_with_value_get_spec {T : Type} (size : Nat) (v : T) (i : Nat) :
    (i < size → (RaceBuf.new_with_value size v).get i = some v) ∧
    (size ≤ i → (RaceBuf.new_with_value size v).get i = none) := by
  unfold RaceBuf.get RaceBuf.new_with_value
  constructor
  · intro h
    simp [List.get?_eq_getElem?, List.getElem?_replicate, h, Nat.not_le.mpr h]
  · intro h
    simp [Nat.le_of_lt, h]

/-- Witness for C1 at `size = 3`, `v = 7`, `i = 1` and `i = 5`. -/
theorem new_with_value_get_spec_witness :
    (RaceBuf.new_with_value 3 (7 : Nat)).get 1 = some 7 ∧
    (RaceBuf.new_with_value 3 (7 : Nat)).get 5 = none :=
  ⟨(new_with_value_get_spec 3 7 1).1 (by decide),
   (new_with_value_get_spec 3 7 5).2 (by decide)⟩

/-- Claim C2: for every buffer, in-range index `i` and value `v`,
`set(i, v)` followed by `get(i)` returns `Some(v)`. -/
theorem set_get_roundtrip {T : Type} (b : RaceBuf T) (i : Nat) (v : T)
    (h : i < b.len) : (b.set i v).get i = some v := by
  unfold RaceBuf.len at h
  unfold RaceBuf.set RaceBuf.get
  rw [if_neg (Nat.not_le.mpr h)]
  simp only [List.length_set]
  rw [if_neg (Nat.not_le.mpr h)]
  simp [List.get?_eq_getElem?, List.getElem?_set_eq_of_lt v h]

/-- Witness for C2 on the buffer `[1, 2, 3]` at `i = 1`, `v = 9`. -/
theorem set_get_roundtrip_witness :
    1 < (RaceBuf.from_vec [1, 2, 3] : RaceBuf Nat).len ∧
    ((RaceBuf.from_vec [1, 2, 3] : RaceBuf Nat).set 1 9).get 1 = some 9 :=
  ⟨by decide, set_get_roundtrip (RaceBuf.from_vec [1, 2, 3]) 1 9 (by decide)⟩

/-- Claim C3: `get(idx)` returns `None` exactly when `idx ≥ len()`; for
in-range `idx` the result is present.  `get` takes the buffer by shared
reference and is modelled as a pure function, so the buffer state is
unchanged by construction. -/
theorem get_none_iff_oob {T : Type} (b : RaceBuf T) (idx : Nat) :
    (b.get idx = none ↔ b.len ≤ idx) ∧
    (idx < b.len → (b.get idx).isSome = true) := by
  unfold RaceBuf.get RaceBuf.len
  constructor
  · constructor
    · intro h
      by_contra hlt
      rw [if_neg (Nat.not_le.mpr (Nat.not_le.mp hlt))] at h
      rw [List.get?_eq_getElem?, List.getElem?_eq_getElem (Nat.not_le.mp hlt)] at h
      exact Option.noConfusion h
    · intro h
      rw [if_pos h]
  · intro h
    rw [if_neg (Nat.not_le.mpr h)]
    simp [List.get?_eq_getElem?, List.getElem?_eq_getElem h]

/-- Witness for C3 on the buffer `[5, 6]` at `idx = 3` (out of range) and
`idx = 1` (in range). -/
theorem get_none_iff_oob_witness :
    (RaceBuf.from_vec [5, 6] : RaceBuf Nat).get 3 = none ∧
    ((RaceBuf.from_vec [5, 6] : RaceBuf Nat).get 1).isSome = true :=
  ⟨(get_none_iff_oob (RaceBuf.from_vec [5, 6]) 3).1.mpr (by decide),
   (get_none_iff_oob (RaceBuf.from_vec [5, 6]) 1).2 (by decide)⟩

/-- Claim C4: `set(idx, v)` for out-of-range `idx` is a silent no-op: the
buffer state is unchanged, so every subsequent `get(j)` returns the same
value as before the call. -/
theorem set_oob_noop {T : Type} (b : RaceBuf T) (idx : Nat) (v : T)
    (h : b.len ≤ idx) :
    b.set idx v = b ∧ ∀ j : Nat, (b.set idx v).get j = b.get j := by
  have heq : b.set idx v = b := by
    unfold RaceBuf.set
    exact if_pos h
  exact ⟨heq, fun j => by rw [heq]⟩

/-- Witness for C4 on the buffer `[1, 2]` at `idx = 5`, `v = 42`. -/
theorem set_oob_noop_witness :
    (RaceBuf.from_vec [1, 2] : RaceBuf Nat).len ≤ 5 ∧
    (RaceBuf.from_vec [1, 2] : RaceBuf Nat).set 5 42 = RaceBuf.from_vec [1, 2] :=
  ⟨by decide, (set_oob_noop (RaceBuf.from_vec [1, 2]) 5 42 (by decide)).1⟩

/-- Claim C5: for every size and default-constructible element type,
`new(size)` equals `new_with_value(size, default)` as a state. -/
theorem new_eq_new_with_value_default (T : Type) [Inhabited T] (size : Nat) :
    (RaceBuf.new size : RaceBuf T) = RaceBuf.new_with_value size (default : T) :=
  rfl

/-- Claim C6: `len()` is `size` after `new_with_value(size, v)` and after
`new(size)`, is the sequence length after `from_vec`, and is invariant
under any finite sequence of `get`/`set` calls with any indices and
values. -/
theorem len_invariant {T : Type} [Inhabited T] (size : Nat) (v : T)
    (l : List T) (b : RaceBuf T) (ops : List (RaceBuf.Op T)) :
    (RaceBuf.new_with_value size v).len = size ∧
    (RaceBuf.new size : RaceBuf T).len = size ∧
    (RaceBuf.from_vec l).len = l.length ∧
    (RaceBuf.applyOps b ops).len = b.len := by
  refine ⟨?_, ?_, rfl, ?_⟩
  · simp [RaceBuf.new_with_value, RaceBuf.len]
  · simp [RaceBuf.new, RaceBuf.new_with_value, RaceBuf.len]
  · induction ops generalizing b with
    | nil => rfl
    | cons op rest ih =>
        show (RaceBuf.applyOps (RaceBuf.applyOp b op) rest).len = b.len
        rw [ih (RaceBuf.applyOp b op), RaceBuf.len_applyOp]

/-- Claim C7: `from_vec(seq)` followed by `into_inner()` returns `seq`
itself, and `from_vec(seq).len()` is the length of `seq`. -/
theorem from_vec_into_inner {T : Type} (l : List T) :
    (RaceBuf.from_vec l).into_inner = l ∧ (RaceBuf.from_vec l).len = l.length :=
  ⟨rfl, rfl⟩

/-- Claim C8: the checked operations are safe: for in-range `idx` the
unchecked load/store they reach is inside the allocation (never the
undefined-behaviour case, modelled by `none`), and for out-of-range `idx`
the unchecked branch is not reached at all — `get` returns `None` and
`set` returns the buffer unchanged, with no memory access. -/
theorem checked_ops_safe {T : Type} (b : RaceBuf T) (idx : Nat) (v : T) :
    (idx < b.len →
      (b.get_unchecked idx).isSome = true ∧
      b.get idx = b.get_unchecked idx ∧
      b.set_unchecked idx v = some (b.set idx v)) ∧
    (b.len ≤ idx → b.get idx = none ∧ b.set idx v = b) := by
  unfold RaceBuf.len RaceBuf.get RaceBuf.get_unchecked RaceBuf.set
  unfold RaceBuf.set_unchecked
  constructor
  · intro h
    refine ⟨?_, ?_, ?_⟩
    · simp [List.get?_eq_getElem?, List.getElem?_eq_getElem h]
    · rw [if_neg (Nat.not_le.mpr h)]
    · rw [if_pos h, if_neg (Nat.not_le.mpr h)]
  · intro h
    exact ⟨if_pos h, if_pos h⟩

/-- Witness for C8 on the buffer `[10, 20]` at the in-range index `1`. -/
theorem checked_ops_safe_witness :
    ((RaceBuf.from_vec [10, 20] : RaceBuf Nat).get_unchecked 1).isSome = true ∧
    (RaceBuf.from_vec [10, 20] : RaceBuf Nat).get 1 =
      (RaceBuf.from_vec [10, 20] : RaceBuf Nat).get_unchecked 1 ∧
    (RaceBuf.from_vec [10, 20] : RaceBuf Nat).set_unchecked 1 7 =
      some ((RaceBuf.from_vec [10, 20] : RaceBuf Nat).set 1 7) :=
  (checked_ops_safe (RaceBuf.from_vec [10, 20]) 1 7).1 (by decide)

/-- Claim C10: an in-range `set(i, v)` changes only index `i`: every other
in-range index `j` reads the same value after the call as before it. -/
theorem set_frame {T : Type} (b : RaceBuf T) (i j : Nat) (v : T)
    (hi : i < b.len) (hj : j < b.len) (hne : j ≠ i) :
    (b.set i v).get j = b.get j := by
  unfold RaceBuf.len at hi hj
  unfold RaceBuf.set RaceBuf.get
  rw [if_neg (Nat.not_le.mpr hi)]
  simp only [List.length_set]
  rw [if_neg (Nat.not_le.mpr hj), if_neg (Nat.not_le.mpr hj)]
  simp [List.get?_eq_getElem?, List.getElem?_set_ne (Ne.symm hne)]

/-- Witness for C10 on the buffer `[1, 2, 3]`: writing `9` at index `0`
leaves index `2` unchanged. -/
theorem set_frame_witness :
    ((RaceBuf.from_vec [1, 2, 3] : RaceBuf Nat).set 0 9).get 2 =
      (RaceBuf.from_vec [1, 2, 3] : RaceBuf Nat).get 2 :=
  set_frame (RaceBuf.from_vec [1, 2, 3]) 0 2 9 (by decide) (by decide) (by decide)
